import Mathlib

/-!
Verification of the pointwise data-term kernel in
`src/cpp/src/nonrigid_optimization/data_term.cpp` (namespace `data_term`).

The kernel reads four dense 2D float fields at a single location `(x, y)`
(row `y`, column `x`), and produces two gradient scalars and one energy
scalar.  Float values are embedded as exact rationals (`ℚ`); the constants
`10.0F` and `0.5F` of the source are exactly representable, so the embedded
arithmetic mirrors the source expressions term by term.

`data_term_at_location` takes its three outputs through reference
parameters; the embedding provides both a pure version returning a
`DataTermResult` record and a state-passing version
(`data_term_at_location_run`) acting on the caller-visible `KernelState`,
used for the frame/purity claim and for the adapter
`py_data_term_at_location`, which declares three uninitialised local floats
and passes them by reference.
-/

namespace data_term

/-- Dense 2D float matrix (Eigen `MatrixXf`), indexed `(row, column)`.
Entries are modelled as a total function so that matrices of any shape,
including mismatched ones, can be compared; `rows`/`cols` record the shape. -/
structure MatrixXf where
  rows : Nat
  cols : Nat
  entry : Nat → Nat → ℚ

/-- The location with row `y` and column `x` indexes a valid element of `m`. -/
def MatrixXf.inBounds (m : MatrixXf) (y x : Nat) : Prop :=
  y < m.rows ∧ x < m.cols

instance (m : MatrixXf) (y x : Nat) : Decidable (m.inBounds y x) := by
  unfold MatrixXf.inBounds
  infer_instance

/-- Two matrices have the same shape. -/
def sameShape (a b : MatrixXf) : Prop :=
  a.rows = b.rows ∧ a.cols = b.cols

instance (a b : MatrixXf) : Decidable (sameShape a b) := by
  unfold sameShape
  infer_instance

/-- The location `(x, y)` is in bounds for all four input fields. -/
def inBoundsAll (w c gx gy : MatrixXf) (y x : Nat) : Prop :=
  w.inBounds y x ∧ c.inBounds y x ∧ gx.inBounds y x ∧ gy.inBounds y x

instance (w c gx gy : MatrixXf) (y x : Nat) : Decidable (inBoundsAll w c gx gy y x) := by
  unfold inBoundsAll
  infer_instance

/-- The three scalars written through the reference output parameters of
`data_term_at_location`. -/
structure DataTermResult where
  data_gradient_x : ℚ
  data_gradient_y : ℚ
  local_energy_contribution : ℚ

/-- Translation of `data_term_at_location` (data_term.cpp, lines 35-49):
sample the two SDF fields and the two gradient fields at row `y`, column `x`,
form the difference, and write the scaled gradient components and the
quadratic energy contribution.  The three reference output parameters become
the returned `DataTermResult`. -/
def data_term_at_location (warped_live_field canonical_field : MatrixXf) (x y : Nat)
    (live_gradient_x_field live_gradient_y_field : MatrixXf) : DataTermResult :=
  let live_sdf := warped_live_field.entry y x
  let canonical_sdf := canonical_field.entry y x
  let difference := live_sdf - canonical_sdf
  let scaling_factor : ℚ := 10
  let gradient_x := live_gradient_x_field.entry y x
  let gradient_y := live_gradient_y_field.entry y x
  { data_gradient_x := difference * gradient_x * scaling_factor
    data_gradient_y := difference * gradient_y * scaling_factor
    local_energy_contribution := (1 / 2 : ℚ) * difference * difference }

/-- The caller-visible state of one call to `data_term_at_location`: the four
input fields it may read and the three caller-supplied float slots its
reference parameters alias. -/
structure KernelState where
  warped_live_field : MatrixXf
  canonical_field : MatrixXf
  live_gradient_x_field : MatrixXf
  live_gradient_y_field : MatrixXf
  data_gradient_x : ℚ
  data_gradient_y : ℚ
  local_energy_contribution : ℚ

/-- `data_term_at_location` as a transformer of the caller-visible state:
the body only reads the four fields and assigns the three output slots. -/
def data_term_at_location_run (s : KernelState) (x y : Nat) : KernelState :=
  let live_sdf := s.warped_live_field.entry y x
  let canonical_sdf := s.canonical_field.entry y x
  let difference := live_sdf - canonical_sdf
  let scaling_factor : ℚ := 10
  let gradient_x := s.live_gradient_x_field.entry y x
  let gradient_y := s.live_gradient_y_field.entry y x
  { s with
    data_gradient_x := difference * gradient_x * scaling_factor
    data_gradient_y := difference * gradient_y * scaling_factor
    local_energy_contribution := (1 / 2 : ℚ) * difference * difference }

/-- Eigen `RowVector2f`: a two-component float row vector, built by the
adapter from the two gradient outputs. -/
structure RowVector2f where
  c0 : ℚ
  c1 : ℚ

/-- Translation of `py_data_term_at_location` (data_term.cpp, lines 51-62):
take the four fields by value, declare three uninitialised local floats
(modelled as arbitrary initial slot values, here `0`, which the callee
overwrites), invoke `data_term_at_location` on them by reference, pack the
two gradient slots into a `RowVector2f`, and return the Boost.Python tuple
`(gradient vector, energy scalar)`. -/
def py_data_term_at_location (warped_live_field canonical_field : MatrixXf) (x y : Nat)
    (live_gradient_x_field live_gradient_y_field : MatrixXf) : RowVector2f × ℚ :=
  let s0 : KernelState :=
    { warped_live_field := warped_live_field
      canonical_field := canonical_field
      live_gradient_x_field := live_gradient_x_field
      live_gradient_y_field := live_gradient_y_field
      data_gradient_x := 0
      data_gradient_y := 0
      local_energy_contribution := 0 }
  let s1 := data_term_at_location_run s0 x y
  let data_gradient : RowVector2f := { c0 := s1.data_gradient_x, c1 := s1.data_gradient_y }
  (data_gradient, s1.local_energy_contribution)

/-- Modelled from the spec (refinement side of claim C3): the adapter
"returns exactly the result of `data_term_at_location` on the same input,
repackaged as a 2-tuple whose first element is the 2-vector
(data_gradient_x, data_gradient_y) and whose second element is
local_energy_contribution". -/
def adapter_spec (warped_live_field canonical_field : MatrixXf) (x y : Nat)
    (live_gradient_x_field live_gradient_y_field : MatrixXf) : RowVector2f × ℚ :=
  let r := data_term_at_location warped_live_field canonical_field x y
    live_gradient_x_field live_gradient_y_field
  ({ c0 := r.data_gradient_x, c1 := r.data_gradient_y }, r.local_energy_contribution)

/-- Constant test matrix of shape `r × c` with every entry `v`. -/
def mkM (r c : Nat) (v : ℚ) : MatrixXf :=
  { rows := r, cols := c, entry := fun _ _ => v }

/-- A 5 × 7 test matrix whose entry at row 0, column 1 is `v` and whose other
entries are `99`, used to exercise dependence on the sampled cell alone. -/
def mkOdd (v : ℚ) : MatrixXf :=
  { rows := 5, cols := 7, entry := fun y x => if y = 0 ∧ x = 1 then v else 99 }

/-- Claim C1: for every four same-shaped fields and every in-bounds location
`(x, y)`, `data_term_at_location` sets `data_gradient_x` to
`(warped_live_field[y,x] - canonical_field[y,x]) * live_gradient_x_field[y,x] * 10`
and `data_gradient_y` to
`(warped_live_field[y,x] - canonical_field[y,x]) * live_gradient_y_field[y,x] * 10`. -/
theorem C1_data_gradient_formula (w c gx gy : MatrixXf) (x y : Nat)
    (hc : sameShape w c) (hgx : sameShape w gx) (hgy : sameShape w gy)
    (hb : w.inBounds y x) :
    (data_term_at_location w c x y gx gy).data_gradient_x
      = (w.entry y x - c.entry y x) * gx.entry y x * 10 ∧
    (data_term_at_location w c x y gx gy).data_gradient_y
      = (w.entry y x - c.entry y x) * gy.entry y x * 10 :=
  ⟨rfl, rfl⟩

/-- Witness for C1 at a concrete input: same-shaped 2 × 3 fields with sampled
values live = 1, canonical = 1/2, grad_x = 2, grad_y = -1 at `(x, y) = (1, 0)`. -/
theorem C1_data_gradient_formula_witness :
    sameShape (mkM 2 3 1) (mkM 2 3 (1 / 2)) ∧
    sameShape (mkM 2 3 1) (mkM 2 3 2) ∧
    sameShape (mkM 2 3 1) (mkM 2 3 (-1)) ∧
    (mkM 2 3 1).inBounds 0 1 ∧
    ((data_term_at_location (mkM 2 3 1) (mkM 2 3 (1 / 2)) 1 0 (mkM 2 3 2)
        (mkM 2 3 (-1))).data_gradient_x
      = ((mkM 2 3 1).entry 0 1 - (mkM 2 3 (1 / 2)).entry 0 1) * (mkM 2 3 2).entry 0 1 * 10 ∧
     (data_term_at_location (mkM 2 3 1) (mkM 2 3 (1 / 2)) 1 0 (mkM 2 3 2)
        (mkM 2 3 (-1))).data_gradient_y
      = ((mkM 2 3 1).entry 0 1 - (mkM 2 3 (1 / 2)).entry 0 1) * (mkM 2 3 (-1)).entry 0 1 * 10) :=
  ⟨by decide, by decide, by decide, by decide,
    C1_data_gradient_formula (mkM 2 3 1) (mkM 2 3 (1 / 2)) (mkM 2 3 2) (mkM 2 3 (-1)) 1 0
      (by decide) (by decide) (by decide) (by decide)⟩

/-- Claim C2: for every four same-shaped fields and every in-bounds location
`(x, y)`, `data_term_at_location` sets `local_energy_contribution` to
`0.5 * (warped_live_field[y,x] - canonical_field[y,x])^2`. -/
theorem C2_energy_formula (w c gx gy : MatrixXf) (x y : Nat)
    (hc : sameShape w c) (hgx : sameShape w gx) (hgy : sameShape w gy)
    (hb : w.inBounds y x) :
    (data_term_at_location w c x y gx gy).local_energy_contribution
      = (1 / 2 : ℚ) * (w.entry y x - c.entry y x) ^ 2 := by
  simp only [data_term_at_location]
  ring

/-- Witness for C2 at the concrete input of the C1 witness. -/
theorem C2_energy_formula_witness :
    sameShape (mkM 2 3 1) (mkM 2 3 (1 / 2)) ∧
    sameShape (mkM 2 3 1) (mkM 2 3 2) ∧
    sameShape (mkM 2 3 1) (mkM 2 3 (-1)) ∧
    (mkM 2 3 1).inBounds 0 1 ∧
    (data_term_at_location (mkM 2 3 1) (mkM 2 3 (1 / 2)) 1 0 (mkM 2 3 2)
        (mkM 2 3 (-1))).local_energy_contribution
      = (1 / 2 : ℚ) * ((mkM 2 3 1).entry 0 1 - (mkM 2 3 (1 / 2)).entry 0 1) ^ 2 :=
  ⟨by decide, by decide, by decide, by decide,
    C2_energy_formula (mkM 2 3 1) (mkM 2 3 (1 / 2)) (mkM 2 3 2) (mkM 2 3 (-1)) 1 0
      (by decide) (by decide) (by decide) (by decide)⟩

/-- Claim C3: for every input with an in-bounds location, the adapter
`py_data_term_at_location` returns exactly the result of
`data_term_at_location` on the same input, repackaged as a 2-tuple of the
gradient 2-vector and the energy scalar, adding no other semantics. -/
theorem C3_adapter_refines (w c gx gy : MatrixXf) (x y : Nat)
    (hb : inBoundsAll w c gx gy y x) :
    py_data_term_at_location w c x y gx gy = adapter_spec w c x y gx gy :=
  rfl

/-- Witness for C3 at a concrete in-bounds input. -/
theorem C3_adapter_refines_witness :
    inBoundsAll (mkM 2 3 1) (mkM 2 3 (1 / 2)) (mkM 2 3 2) (mkM 2 3 (-1)) 0 1 ∧
    py_data_term_at_location (mkM 2 3 1) (mkM 2 3 (1 / 2)) 1 0 (mkM 2 3 2) (mkM 2 3 (-1))
      = adapter_spec (mkM 2 3 1) (mkM 2 3 (1 / 2)) 1 0 (mkM 2 3 2) (mkM 2 3 (-1)) :=
  ⟨by decide,
    C3_adapter_refines (mkM 2 3 1) (mkM 2 3 (1 / 2)) (mkM 2 3 2) (mkM 2 3 (-1)) 1 0 (by decide)⟩

/-- Claim C4: for every in-bounds location at which the warped live field and
the canonical field agree, all three outputs of `data_term_at_location` are
exactly `0`, whatever the two gradient fields hold at that cell. -/
theorem C4_zero_at_agreement (w c gx gy : MatrixXf) (x y : Nat)
    (hb : inBoundsAll w c gx gy y x) (heq : w.entry y x = c.entry y x) :
    (data_term_at_location w c x y gx gy).data_gradient_x = 0 ∧
    (data_term_at_location w c x y gx gy).data_gradient_y = 0 ∧
    (data_term_at_location w c x y gx gy).local_energy_contribution = 0 := by
  simp [data_term_at_location, heq]

/-- Witness for C4: equal sampled SDF values `7` with nonzero gradient-field
values at the sampled cell. -/
theorem C4_zero_at_agreement_witness :
    inBoundsAll (mkM 2 3 7) (mkM 4 5 7) (mkM 2 3 2) (mkM 2 3 (-1)) 0 1 ∧
    (mkM 2 3 7).entry 0 1 = (mkM 4 5 7).entry 0 1 ∧
    ((data_term_at_location (mkM 2 3 7) (mkM 4 5 7) 1 0 (mkM 2 3 2)
        (mkM 2 3 (-1))).data_gradient_x = 0 ∧
     (data_term_at_location (mkM 2 3 7) (mkM 4 5 7) 1 0 (mkM 2 3 2)
        (mkM 2 3 (-1))).data_gradient_y = 0 ∧
     (data_term_at_location (mkM 2 3 7) (mkM 4 5 7) 1 0 (mkM 2 3 2)
        (mkM 2 3 (-1))).local_energy_contribution = 0) :=
  ⟨by decide, by decide,
    C4_zero_at_agreement (mkM 2 3 7) (mkM 4 5 7) (mkM 2 3 2) (mkM 2 3 (-1)) 1 0
      (by decide) (by decide)⟩

/-- Claim C6: swapping the warped live field and the canonical field negates
both gradient outputs and leaves the energy contribution unchanged. -/
theorem C6_swap_negates_gradients (w c gx gy : MatrixXf) (x y : Nat)
    (hb : inBoundsAll w c gx gy y x) :
    (data_term_at_location c w x y gx gy).data_gradient_x
      = -(data_term_at_location w c x y gx gy).data_gradient_x ∧
    (data_term_at_location c w x y gx gy).data_gradient_y
      = -(data_term_at_location w c x y gx gy).data_gradient_y ∧
    (data_term_at_location c w x y gx gy).local_energy_contribution
      = (data_term_at_location w c x y gx gy).local_energy_contribution := by
  simp only [data_term_at_location]
  refine ⟨by ring, by ring, by ring⟩

/-- Witness for C6 at a concrete in-bounds input. -/
theorem C6_swap_negates_gradients_witness :
    inBoundsAll (mkM 2 3 1) (mkM 2 3 (1 / 2)) (mkM 2 3 2) (mkM 2 3 (-1)) 0 1 ∧
    ((data_term_at_location (mkM 2 3 (1 / 2)) (mkM 2 3 1) 1 0 (mkM 2 3 2)
        (mkM 2 3 (-1))).data_gradient_x
      = -(data_term_at_location (mkM 2 3 1) (mkM 2 3 (1 / 2)) 1 0 (mkM 2 3 2)
        (mkM 2 3 (-1))).data_gradient_x ∧
     (data_term_at_location (mkM 2 3 (1 / 2)) (mkM 2 3 1) 1 0 (mkM 2 3 2)
        (mkM 2 3 (-1))).data_gradient_y
      = -(data_term_at_location (mkM 2 3 1) (mkM 2 3 (1 / 2)) 1 0 (mkM 2 3 2)
        (mkM 2 3 (-1))).data_gradient_y ∧
     (data_term_at_location (mkM 2 3 (1 / 2)) (mkM 2 3 1) 1 0 (mkM 2 3 2)
        (mkM 2 3 (-1))).local_energy_contribution
      = (data_term_at_location (mkM 2 3 1) (mkM 2 3 (1 / 2)) 1 0 (mkM 2 3 2)
        (mkM 2 3 (-1))).local_energy_contribution) :=
  ⟨by decide,
    C6_swap_negates_gradients (mkM 2 3 1) (mkM 2 3 (1 / 2)) (mkM 2 3 2) (mkM 2 3 (-1)) 1 0
      (by decide)⟩

/-- Claim C7: doubling the values of the two gradient fields at the sampled
cell doubles both gradient outputs and leaves the energy unchanged.  The
doubled fields are any fields `gx2`, `gy2` whose entries at `(y, x)` are
twice those of `gx`, `gy`. -/
theorem C7_gradient_scaling (w c gx gy gx2 gy2 : MatrixXf) (x y : Nat)
    (hb : inBoundsAll w c gx gy y x)
    (hdx : gx2.entry y x = 2 * gx.entry y x)
    (hdy : gy2.entry y x = 2 * gy.entry y x) :
    (data_term_at_location w c x y gx2 gy2).data_gradient_x
      = 2 * (data_term_at_location w c x y gx gy).data_gradient_x ∧
    (data_term_at_location w c x y gx2 gy2).data_gradient_y
      = 2 * (data_term_at_location w c x y gx gy).data_gradient_y ∧
    (data_term_at_location w c x y gx2 gy2).local_energy_contribution
      = (data_term_at_location w c x y gx gy).local_energy_contribution := by
  refine ⟨?_, ?_, ?_⟩
  · simp only [data_term_at_location, hdx]
    ring
  · simp only [data_term_at_location, hdy]
    ring
  · simp only [data_term_at_location]

/-- Witness for C7: doubling gradient-field values 2 and -1 to 4 and -2. -/
theorem C7_gradient_scaling_witness :
    inBoundsAll (mkM 2 3 1) (mkM 2 3 (1 / 2)) (mkM 2 3 2) (mkM 2 3 (-1)) 0 1 ∧
    (mkM 2 3 4).entry 0 1 = 2 * (mkM 2 3 2).entry 0 1 ∧
    (mkM 2 3 (-2)).entry 0 1 = 2 * (mkM 2 3 (-1)).entry 0 1 ∧
    ((data_term_at_location (mkM 2 3 1) (mkM 2 3 (1 / 2)) 1 0 (mkM 2 3 4)
        (mkM 2 3 (-2))).data_gradient_x
      = 2 * (data_term_at_location (mkM 2 3 1) (mkM 2 3 (1 / 2)) 1 0 (mkM 2 3 2)
        (mkM 2 3 (-1))).data_gradient_x ∧
     (data_term_at_location (mkM 2 3 1) (mkM 2 3 (1 / 2)) 1 0 (mkM 2 3 4)
        (mkM 2 3 (-2))).data_gradient_y
      = 2 * (data_term_at_location (mkM 2 3 1) (mkM 2 3 (1 / 2)) 1 0 (mkM 2 3 2)
        (mkM 2 3 (-1))).data_gradient_y ∧
     (data_term_at_location (mkM 2 3 1) (mkM 2 3 (1 / 2)) 1 0 (mkM 2 3 4)
        (mkM 2 3 (-2))).local_energy_contribution
      = (data_term_at_location (mkM 2 3 1) (mkM 2 3 (1 / 2)) 1 0 (mkM 2 3 2)
        (mkM 2 3 (-1))).local_energy_contribution) :=
  ⟨by decide, by norm_num [mkM], by norm_num [mkM],
    C7_gradient_scaling (mkM 2 3 1) (mkM 2 3 (1 / 2)) (mkM 2 3 2) (mkM 2 3 (-1))
      (mkM 2 3 4) (mkM 2 3 (-2)) 1 0 (by decide) (by norm_num [mkM]) (by norm_num [mkM])⟩

/-- Claim C8: at sampled values live = 1, canonical = 1/2, grad_x = 2,
grad_y = -1, the kernel outputs data_gradient_x = 10, data_gradient_y = -5
and local_energy_contribution = 1/8 (= 0.125), and the adapter returns the
2-vector (10, -5) and the scalar 1/8 on the same input. -/
theorem C8_concrete_scenario :
    (data_term_at_location (mkM 2 3 1) (mkM 2 3 (1 / 2)) 1 0 (mkM 2 3 2)
        (mkM 2 3 (-1))).data_gradient_x = 10 ∧
    (data_term_at_location (mkM 2 3 1) (mkM 2 3 (1 / 2)) 1 0 (mkM 2 3 2)
        (mkM 2 3 (-1))).data_gradient_y = -5 ∧
    (data_term_at_location (mkM 2 3 1) (mkM 2 3 (1 / 2)) 1 0 (mkM 2 3 2)
        (mkM 2 3 (-1))).local_energy_contribution = 1 / 8 ∧
    (py_data_term_at_location (mkM 2 3 1) (mkM 2 3 (1 / 2)) 1 0 (mkM 2 3 2)
        (mkM 2 3 (-1))).1.c0 = 10 ∧
    (py_data_term_at_location (mkM 2 3 1) (mkM 2 3 (1 / 2)) 1 0 (mkM 2 3 2)
        (mkM 2 3 (-1))).1.c1 = -5 ∧
    (py_data_term_at_location (mkM 2 3 1) (mkM 2 3 (1 / 2)) 1 0 (mkM 2 3 2)
        (mkM 2 3 (-1))).2 = 1 / 8 := by
  norm_num [data_term_at_location, py_data_term_at_location, data_term_at_location_run, mkM]

/-- Claim C9: one call writes only the three designated output slots of the
caller-visible state, leaves the four input fields unchanged, and its
outputs are exactly the pure function `data_term_at_location` of the input
fields alone. -/
theorem C9_frame_and_purity (s : KernelState) (x y : Nat)
    (hb : inBoundsAll s.warped_live_field s.canonical_field s.live_gradient_x_field
      s.live_gradient_y_field y x) :
    ((data_term_at_location_run s x y).warped_live_field = s.warped_live_field ∧
     (data_term_at_location_run s x y).canonical_field = s.canonical_field ∧
     (data_term_at_location_run s x y).live_gradient_x_field = s.live_gradient_x_field ∧
     (data_term_at_location_run s x y).live_gradient_y_field = s.live_gradient_y_field) ∧
    DataTermResult.mk (data_term_at_location_run s x y).data_gradient_x
        (data_term_at_location_run s x y).data_gradient_y
        (data_term_at_location_run s x y).local_energy_contribution
      = data_term_at_location s.warped_live_field s.canonical_field x y
        s.live_gradient_x_field s.live_gradient_y_field :=
  ⟨⟨rfl, rfl, rfl, rfl⟩, rfl⟩

/-- Concrete caller state for the C9 witness, with nonzero junk in the three
output slots to show they are overwritten from the fields alone. -/
def sWitness : KernelState :=
  { warped_live_field := mkM 2 3 1
    canonical_field := mkM 2 3 (1 / 2)
    live_gradient_x_field := mkM 2 3 2
    live_gradient_y_field := mkM 2 3 (-1)
    data_gradient_x := 42
    data_gradient_y := 43
    local_energy_contribution := 44 }

/-- Witness for C9 at the concrete state `sWitness` and location (1, 0). -/
theorem C9_frame_and_purity_witness :
    inBoundsAll sWitness.warped_live_field sWitness.canonical_field
      sWitness.live_gradient_x_field sWitness.live_gradient_y_field 0 1 ∧
    (((data_term_at_location_run sWitness 1 0).warped_live_field
        = sWitness.warped_live_field ∧
      (data_term_at_location_run sWitness 1 0).canonical_field
        = sWitness.canonical_field ∧
      (data_term_at_location_run sWitness 1 0).live_gradient_x_field
        = sWitness.live_gradient_x_field ∧
      (data_term_at_location_run sWitness 1 0).live_gradient_y_field
        = sWitness.live_gradient_y_field) ∧
     DataTermResult.mk (data_term_at_location_run sWitness 1 0).data_gradient_x
        (data_term_at_location_run sWitness 1 0).data_gradient_y
        (data_term_at_location_run sWitness 1 0).local_energy_contribution
      = data_term_at_location sWitness.warped_live_field sWitness.canonical_field 1 0
        sWitness.live_gradient_x_field sWitness.live_gradient_y_field) :=
  ⟨by decide, C9_frame_and_purity sWitness 1 0 (by decide)⟩

/-- Claim C10: whenever two inputs agree in the four sampled values at the
in-bounds cell `(y, x)` — even with different entries elsewhere or different
shapes — `data_term_at_location` and `py_data_term_at_location` produce
identical outputs on them. -/
theorem C10_noninterference (w1 c1 gx1 gy1 w2 c2 gx2 gy2 : MatrixXf) (x y : Nat)
    (hb1 : inBoundsAll w1 c1 gx1 gy1 y x) (hb2 : inBoundsAll w2 c2 gx2 gy2 y x)
    (hw : w1.entry y x = w2.entry y x) (hc : c1.entry y x = c2.entry y x)
    (hgx : gx1.entry y x = gx2.entry y x) (hgy : gy1.entry y x = gy2.entry y x) :
    data_term_at_location w1 c1 x y gx1 gy1 = data_term_at_location w2 c2 x y gx2 gy2 ∧
    py_data_term_at_location w1 c1 x y gx1 gy1
      = py_data_term_at_location w2 c2 x y gx2 gy2 := by
  have h : data_term_at_location w1 c1 x y gx1 gy1
      = data_term_at_location w2 c2 x y gx2 gy2 := by
    simp only [data_term_at_location, hw, hc, hgx, hgy]
  refine ⟨h, ?_⟩
  simp only [py_data_term_at_location, data_term_at_location_run, hw, hc, hgx, hgy]

/-- Witness for C10: a constant 2 × 3 input against a 5 × 7 input agreeing
only at the sampled cell (row 0, column 1). -/
theorem C10_noninterference_witness :
    inBoundsAll (mkM 2 3 1) (mkM 2 3 (1 / 2)) (mkM 2 3 2) (mkM 2 3 (-1)) 0 1 ∧
    inBoundsAll (mkOdd 1) (mkOdd (1 / 2)) (mkOdd 2) (mkOdd (-1)) 0 1 ∧
    (mkM 2 3 1).entry 0 1 = (mkOdd 1).entry 0 1 ∧
    (mkM 2 3 (1 / 2)).entry 0 1 = (mkOdd (1 / 2)).entry 0 1 ∧
    (mkM 2 3 2).entry 0 1 = (mkOdd 2).entry 0 1 ∧
    (mkM 2 3 (-1)).entry 0 1 = (mkOdd (-1)).entry 0 1 ∧
    (data_term_at_location (mkM 2 3 1) (mkM 2 3 (1 / 2)) 1 0 (mkM 2 3 2) (mkM 2 3 (-1))
      = data_term_at_location (mkOdd 1) (mkOdd (1 / 2)) 1 0 (mkOdd 2) (mkOdd (-1)) ∧
     py_data_term_at_location (mkM 2 3 1) (mkM 2 3 (1 / 2)) 1 0 (mkM 2 3 2) (mkM 2 3 (-1))
      = py_data_term_at_location (mkOdd 1) (mkOdd (1 / 2)) 1 0 (mkOdd 2) (mkOdd (-1))) :=
  ⟨by decide, by decide, by simp [mkM, mkOdd], by simp [mkM, mkOdd],
    by simp [mkM, mkOdd], by simp [mkM, mkOdd],
    C10_noninterference (mkM 2 3 1) (mkM 2 3 (1 / 2)) (mkM 2 3 2) (mkM 2 3 (-1))
      (mkOdd 1) (mkOdd (1 / 2)) (mkOdd 2) (mkOdd (-1)) 1 0
      (by decide) (by decide) (by simp [mkM, mkOdd]) (by simp [mkM, mkOdd])
      (by simp [mkM, mkOdd]) (by simp [mkM, mkOdd])⟩

end data_term
